import Mathlib

/-!
Shallow embedding of the socket-level load balancer in `bpf/bpf_sock.c`
(IPv4 path).  Pure C helpers become Lean functions; the BPF maps
(service directory, backend tables, ipcache, affinity, reverse-NAT
cache, health map) become function-valued fields of an explicit state
record that is threaded through each hook.  Compile-time configuration
(`#define` guards, node constants) becomes an `LBConfig` record; the
build modelled here has ENABLE_IPV4, ENABLE_NODEPORT,
ENABLE_HOST_SERVICES_TCP, ENABLE_HOST_SERVICES_UDP,
ENABLE_HEALTH_CHECK, BPF_HAVE_NETNS_COOKIE and BPF_HAVE_SOCKET_COOKIE
all enabled.  Machine integers are `Nat`s with explicit truncation
(`% 65536`) where the C types narrow.
-/

/-- IPPROTO_TCP. -/
def IPPROTO_TCP : Nat := 6

/-- IPPROTO_UDP. -/
def IPPROTO_UDP : Nat := 17

/-- IPPROTO_UDPLITE. -/
def IPPROTO_UDPLITE : Nat := 136

/-- SYS_REJECT verdict returned to the kernel (bpf_sock.c line 18). -/
def SYS_REJECT : Nat := 0

/-- SYS_PROCEED verdict returned to the kernel (bpf_sock.c line 19). -/
def SYS_PROCEED : Nat := 1

/-- Modelled from the spec: the socket mark recognized as a health probe
(`MARK_MAGIC_HEALTH` lives in lib/common.h, not under src/); its concrete
value is irrelevant, only equality with it is tested. -/
def MARK_MAGIC_HEALTH : Nat := 0x0F00

/-- METRIC_EGRESS direction code for the metrics sink. -/
def METRIC_EGRESS : Nat := 2

/-- METRIC_INGRESS direction code for the metrics sink. -/
def METRIC_INGRESS : Nat := 1

/-- Modelled from the spec: observable miss reason for a missing backend
slot (lib/metrics.h is not under src/; only distinctness matters). -/
def REASON_LB_NO_BACKEND_SLOT : Nat := 10

/-- Modelled from the spec: observable miss reason for a missing backend. -/
def REASON_LB_NO_BACKEND : Nat := 11

/-- Modelled from the spec: observable reason for a failed reverse-NAT
cache write. -/
def REASON_LB_REVNAT_UPDATE : Nat := 12

/-- Modelled from the spec: observable reason for a stale reverse-NAT
cache entry. -/
def REASON_LB_REVNAT_STALE : Nat := 13

/-- 16-bit byte swap, the constant-time `bpf_htons` on a little-endian
target (operand truncated to 16 bits as by the C cast). -/
def bpf_htons (x : Nat) : Nat := (x % 256) * 256 + (x / 256) % 256

/-- `bpf_ntohs` is the same swap. -/
def bpf_ntohs (x : Nat) : Nat := bpf_htons x

/-- 32-bit byte swap, the constant-time `bpf_htonl` on a little-endian
target. -/
def bpf_htonl (x : Nat) : Nat :=
  (x % 256) * 16777216 + ((x / 256) % 256) * 65536 +
  ((x / 65536) % 256) * 256 + (x / 16777216) % 256

/-- Error results of the internal translation helpers (the negative
errno values of the C code). -/
inductive SockErr where
  | ENXIO
  | ENOTSUP
  | EPERM
  | ENOENT
  | ENOMEM
  | EADDRINUSE
deriving Repr, DecidableEq

/-- `struct lb4_key`: service lookup key (address and port are in
network byte order as in the C struct). -/
structure Lb4Key where
  address : Nat
  dport : Nat
  backend_slot : Nat
deriving Repr, DecidableEq

/-- `struct lb4_service`: one service-directory record.  The C flag
bits are modelled as Booleans; `backend_id` is the field consulted on
backend-slot entries. -/
structure Lb4Service where
  count : Nat
  backend_id : Nat
  rev_nat_index : Nat
  flag_external_ip : Bool
  flag_hostport : Bool
  flag_nodeport : Bool
  flag_loadbalancer : Bool
  flag_localredirect : Bool
  flag_affinity : Bool
deriving Repr, DecidableEq

/-- `struct lb4_backend`: a concrete backend endpoint. -/
structure Lb4Backend where
  address : Nat
  port : Nat
deriving Repr, DecidableEq

/-- `struct remote_endpoint_info` as consumed here: only the security
label is read. -/
structure RemoteEndpointInfo where
  sec_label : Nat
deriving Repr, DecidableEq

/-- `struct ipv4_revnat_tuple`: reverse-NAT cache key. -/
structure RevnatTuple where
  cookie : Nat
  address : Nat
  port : Nat
deriving Repr, DecidableEq

/-- `struct ipv4_revnat_entry`: reverse-NAT cache value. -/
structure RevnatEntry where
  address : Nat
  port : Nat
  rev_nat_index : Nat
deriving Repr, DecidableEq

/-- `struct lb4_health` peer: the intended destination registered for a
health-probe socket. -/
structure HealthPeer where
  address : Nat
  port : Nat
  proto : Nat
deriving Repr, DecidableEq

/-- `struct bpf_sock_addr` as read and written by these hooks, together
with the per-socket oracles the BPF helpers expose on it:
`sock_cookie` is what `get_socket_cookie` returns, `netns_cookie` what
`get_netns_cookie` returns, and `so_mark` the result of
`get_socket_opt(SOL_SOCKET, SO_MARK)` (`none` when the helper fails). -/
structure SockAddrCtx where
  user_ip4 : Nat
  user_port : Nat
  protocol : Nat
  sock_cookie : Nat
  netns_cookie : Nat
  so_mark : Option Nat
deriving Repr, DecidableEq

/-- `struct bpf_sock` as read by the post-bind hooks (`src_port` is in
host byte order per the BPF ABI). -/
structure SockCtx where
  src_ip4 : Nat
  src_port : Nat
  protocol : Nat
  netns_cookie : Nat
deriving Repr, DecidableEq

/-- Compile-time and node configuration: `host_netns_cookie` is
HOST_NETNS_COOKIE, `host_id`/`remote_node_id` are the HOST_ID and
REMOTE_NODE_ID security labels, `nodeport_min`/`nodeport_max` the
NodePort port range (host byte order), `socket_lb_host_only` is
is_defined(ENABLE_SOCKET_LB_HOST_ONLY), `skip_l4_dnat` the
`lb_skip_l4_dnat()` predicate, and `revnat_update_fails` is the
out-of-capacity oracle deciding whether a reverse-NAT map write fails. -/
structure LBConfig where
  host_netns_cookie : Nat
  host_id : Nat
  remote_node_id : Nat
  nodeport_min : Nat
  nodeport_max : Nat
  socket_lb_host_only : Bool
  skip_l4_dnat : Bool
  revnat_update_fails : Bool
deriving Repr, DecidableEq

/-- The shared BPF maps, each modelled from the spec as a fixed-key
associative table (the map machinery itself is an assumed collaborator):
`services` is LB4_SERVICES_MAP_V2 (frontend entries at backend_slot 0,
slot entries at backend_slot > 0), `backends` is LB4_BACKEND_MAP keyed
by backend id, `ipcache` the trust-classification map, `affinity` the
session-affinity table keyed by (service reverse-NAT id, client netns
cookie), `revnat` LB4_REVERSE_NAT_SK_MAP, `health` LB4_HEALTH_MAP keyed
by socket cookie, and `sk_listening` the `sk_lookup_tcp`/`sk_lookup_udp`
probe for a listening socket on (proto, address, port) in the caller's
namespace. -/
structure LBState where
  services : Lb4Key → Option Lb4Service
  backends : Nat → Option Lb4Backend
  ipcache : Nat → Option RemoteEndpointInfo
  affinity : Nat → Nat → Option Nat
  revnat : RevnatTuple → Option RevnatEntry
  health : Nat → Option HealthPeer
  sk_listening : Nat → Nat → Nat → Bool

/-- `is_v4_loopback`: membership in 127.0.0.0/8 tested on the
network-byte-order address, exactly as the C mask does. -/
def is_v4_loopback (daddr : Nat) : Bool :=
  (daddr &&& bpf_htonl 0x7f000000) == bpf_htonl 0x7f000000

/-- `ctx_dst_port`: the low 16 bits of `user_port` (the C cast of the
u32 field to `__be16`). -/
def ctx_dst_port (ctx : SockAddrCtx) : Nat := ctx.user_port % 65536

/-- `ctx_src_port`: `bpf_htons` of the (host-order) `src_port`. -/
def ctx_src_port (ctx : SockCtx) : Nat := bpf_htons (ctx.src_port % 65536)

/-- `ctx_set_port`: store the 16-bit destination port into the context. -/
def ctx_set_port (ctx : SockAddrCtx) (dport : Nat) : SockAddrCtx :=
  { ctx with user_port := dport }

/-- `ctx_in_hostns` with BPF_HAVE_NETNS_COOKIE: the caller is in the
host namespace iff its netns cookie equals HOST_NETNS_COOKIE (the
cookie out-parameter is the caller's own netns cookie, read directly
off the context in the claims below). -/
def ctx_in_hostns (cfg : LBConfig) (ctx : SockAddrCtx) : Bool :=
  ctx.netns_cookie == cfg.host_netns_cookie

/-- `ctx_in_hostns` for the post-bind `struct bpf_sock` context. -/
def sk_ctx_in_hostns (cfg : LBConfig) (ctx : SockCtx) : Bool :=
  ctx.netns_cookie == cfg.host_netns_cookie

/-- `sock_local_cookie` with BPF_HAVE_SOCKET_COOKIE: the socket cookie. -/
def sock_local_cookie (ctx : SockAddrCtx) : Nat := ctx.sock_cookie

/-- `sock_select_slot`: a fresh pseudo-random value for TCP, the stable
per-socket cookie otherwise (`prandom` stands for this call's
`get_prandom_u32()` draw). -/
def sock_select_slot (prandom : Nat) (ctx : SockAddrCtx) : Nat :=
  if ctx.protocol == IPPROTO_TCP then prandom else sock_local_cookie ctx

/-- `sock_proto_enabled` with both ENABLE_HOST_SERVICES_TCP and
ENABLE_HOST_SERVICES_UDP. -/
def sock_proto_enabled (proto : Nat) : Bool :=
  proto == IPPROTO_TCP || proto == IPPROTO_UDPLITE || proto == IPPROTO_UDP

/-- `sock_is_health_check` with ENABLE_HEALTH_CHECK: true when the
SO_MARK read succeeds and equals MARK_MAGIC_HEALTH. -/
def sock_is_health_check (ctx : SockAddrCtx) : Bool :=
  match ctx.so_mark with
  | some v => v == MARK_MAGIC_HEALTH
  | none => false

/-- Modelled from the spec: `lb4_lookup_service` (lib/lb.h is not under
src/) is the assumed directory read path, a plain associative lookup by
(address, port, slot 0). -/
def lb4_lookup_service (st : LBState) (key : Lb4Key) : Option Lb4Service :=
  st.services key

/-- Modelled from the spec: `__lb4_lookup_backend_slot`, the
backend-by-(service, slot) read of the same directory map. -/
def lb4_lookup_backend_slot (st : LBState) (key : Lb4Key) : Option Lb4Service :=
  st.services key

/-- Modelled from the spec: `__lb4_lookup_backend`, the
backend-by-identifier read. -/
def lb4_lookup_backend (st : LBState) (backend_id : Nat) : Option Lb4Backend :=
  st.backends backend_id

/-- Modelled from the spec: `ipcache_lookup4`, the trust-classification
lookup keyed by address. -/
def ipcache_lookup4 (st : LBState) (address : Nat) : Option RemoteEndpointInfo :=
  st.ipcache address

/-- Modelled from the spec: `lb4_affinity_backend_id_by_netns` reads the
affinity table at (service reverse-NAT id, client netns cookie) and
reports 0 when no entry is found. -/
def lb4_affinity_backend_id_by_netns (st : LBState) (svc : Lb4Service)
    (client : Nat) : Nat :=
  match st.affinity svc.rev_nat_index client with
  | some bid => bid
  | none => 0

/-- Modelled from the spec: `lb4_update_affinity_by_netns` upserts the
affinity entry for (service reverse-NAT id, client netns cookie). -/
def lb4_update_affinity_by_netns (st : LBState) (svc : Lb4Service)
    (client : Nat) (backend_id : Nat) : LBState :=
  { st with affinity := fun rnat c =>
      if rnat = svc.rev_nat_index && c = client then some backend_id
      else st.affinity rnat c }

/-- `sock4_update_revnat` (idempotent upsert): returns whether the call
succeeded (the C `ret == 0`) together with the updated state; the write
is skipped when an identical entry is already present, and fails
without effect when the capacity oracle says so. -/
def sock4_update_revnat (cfg : LBConfig) (st : LBState) (ctx_full : SockAddrCtx)
    (backend : Lb4Backend) (orig_key : Lb4Key) (rev_nat_id : Nat) :
    Bool × LBState :=
  let key : RevnatTuple :=
    { cookie := sock_local_cookie ctx_full
      address := backend.address
      port := backend.port }
  let val : RevnatEntry :=
    { address := orig_key.address
      port := orig_key.dport
      rev_nat_index := rev_nat_id }
  match st.revnat key with
  | some tmp =>
    if tmp = val then (true, st)
    else if cfg.revnat_update_fails then (false, st)
    else (true, { st with revnat := fun k => if k = key then some val else st.revnat k })
  | none =>
    if cfg.revnat_update_fails then (false, st)
    else (true, { st with revnat := fun k => if k = key then some val else st.revnat k })

/-- `sock4_skip_xlate`: refuse translation for an external-IP service,
or a HostPort service whose original destination is not loopback,
unless the trust classification of the original destination resolves to
the host's own identity. -/
def sock4_skip_xlate (cfg : LBConfig) (st : LBState) (svc : Lb4Service)
    (address : Nat) : Bool :=
  if svc.flag_external_ip || (svc.flag_hostport && !is_v4_loopback address) then
    match ipcache_lookup4 st address with
    | none => true
    | some info => info.sec_label != cfg.host_id
  else
    false

/-- `sock4_wildcard_lookup` (ENABLE_NODEPORT): the port-range test is
inverted by `inv_match`; the address is zeroed and the directory
re-queried only for loopback callers in the host namespace or for
addresses classified as the host (or, when included, a remote node).
Returns the result together with the possibly mutated key (the C
function writes through its key pointer). -/
def sock4_wildcard_lookup (cfg : LBConfig) (st : LBState) (key : Lb4Key)
    (include_remote_hosts : Bool) (inv_match : Bool) (in_hostns : Bool) :
    Option Lb4Service × Lb4Key :=
  let service_port := bpf_ntohs key.dport
  if ((decide (service_port < cfg.nodeport_min) ||
       decide (service_port > cfg.nodeport_max)) ^^ inv_match) = true then
    (none, key)
  else if in_hostns && is_v4_loopback key.address then
    let key' := { key with address := 0 }
    (lb4_lookup_service st key', key')
  else
    match ipcache_lookup4 st key.address with
    | some info =>
      if info.sec_label == cfg.host_id ||
         (include_remote_hosts && info.sec_label == cfg.remote_node_id) then
        let key' := { key with address := 0 }
        (lb4_lookup_service st key', key')
      else
        (none, key)
    | none => (none, key)

/-- `sock4_wildcard_lookup_full`: first a NodePort-range attempt
including remote hosts, accepted only with the NodePort flag; if that
produced nothing, a HostPort attempt (inverted range, no remote hosts),
accepted only with the HostPort flag.  Key mutation is threaded as in
the C code. -/
def sock4_wildcard_lookup_full (cfg : LBConfig) (st : LBState) (key : Lb4Key)
    (in_hostns : Bool) : Option Lb4Service × Lb4Key :=
  let r1 := sock4_wildcard_lookup cfg st key true false in_hostns
  let svc1 : Option Lb4Service :=
    match r1.1 with
    | some svc => if !svc.flag_nodeport then none else some svc
    | none => none
  match svc1 with
  | some svc => (some svc, r1.2)
  | none =>
    let r2 := sock4_wildcard_lookup cfg st r1.2 false true in_hostns
    match r2.1 with
    | some svc => if !svc.flag_hostport then (none, r2.2) else (some svc, r2.2)
    | none => (none, r2.2)

/-- The exact-then-wildcard service resolution done identically at the
top of `__sock4_xlate_fwd` (lines 358-360) and in `__sock4_xlate_rev`
(lines 570-573). -/
def sock4_resolve_service (cfg : LBConfig) (st : LBState) (key : Lb4Key)
    (in_hostns : Bool) : Option Lb4Service × Lb4Key :=
  match lb4_lookup_service st key with
  | some svc => (some svc, key)
  | none => sock4_wildcard_lookup_full cfg st key in_hostns

/-- `sock4_skip_xlate_if_same_netns` with BPF_HAVE_SOCKET_LOOKUP: the
socket-lookup probe runs only for TCP and UDP (the C switch has no
UDPLITE arm, leaving `sk` NULL there). -/
def sock4_skip_xlate_if_same_netns (st : LBState) (ctx_full : SockAddrCtx)
    (backend : Lb4Backend) : Bool :=
  if ctx_full.protocol == IPPROTO_TCP || ctx_full.protocol == IPPROTO_UDP then
    st.sk_listening ctx_full.protocol backend.address backend.port
  else
    false

/-- Lines 373-395 of `__sock4_xlate_fwd`: the affinity phase.  When the
service has affinity enabled, a non-zero backend identifier from the
affinity table whose backend record still exists yields that (id,
record) pair; in every other case (affinity disabled, no entry, zero
entry, or vanished backend) the caller falls through to fresh slot
selection with `backend_from_affinity` false, exactly as the C sets
`backend_id = 0` there. -/
def sock4_affinity_backend (st : LBState) (svc : Lb4Service) (client : Nat) :
    Option (Nat × Lb4Backend) :=
  if svc.flag_affinity then
    let bid := lb4_affinity_backend_id_by_netns st svc client
    if bid != 0 then
      match lb4_lookup_backend st bid with
      | some backend => some (bid, backend)
      | none => none
    else none
  else none

/-- Result of one forward-translation invocation: the returned errno
(`none` is the C `0`), the final context and state, the metrics emitted
as (direction, reason) pairs, and two ghost observations that do not
influence control flow: the backend-slot index consulted when a fresh
selection ran, and the backend identifier the call settled on. -/
structure FwdRes where
  ret : Option SockErr
  ctx : SockAddrCtx
  st : LBState
  metrics : List (Nat × Nat)
  slotUsed : Option Nat
  backendUsed : Option Nat

/-- Lines 411-432 of `__sock4_xlate_fwd`: the common tail once a backend
record is in hand — local-redirect self-loop avoidance, lazy affinity
write, reverse-NAT cache record, and the final destination rewrite. -/
def sock4_fwd_tail (cfg : LBConfig) (st : LBState) (ctx ctx_full : SockAddrCtx)
    (svc : Lb4Service) (orig_key : Lb4Key) (client : Nat) (backend_id : Nat)
    (backend : Lb4Backend) (backend_from_affinity : Bool)
    (slotUsed : Option Nat) : FwdRes :=
  if svc.flag_localredirect &&
     sock4_skip_xlate_if_same_netns st ctx_full backend then
    { ret := some SockErr.ENXIO, ctx := ctx, st := st, metrics := []
      slotUsed := slotUsed, backendUsed := some backend_id }
  else
    let st1 :=
      if svc.flag_affinity && !backend_from_affinity then
        lb4_update_affinity_by_netns st svc client backend_id
      else st
    match sock4_update_revnat cfg st1 ctx_full backend orig_key svc.rev_nat_index with
    | (false, st2) =>
      { ret := some .ENOMEM, ctx := ctx, st := st2
        metrics := [(METRIC_EGRESS, REASON_LB_REVNAT_UPDATE)]
        slotUsed := slotUsed, backendUsed := some backend_id }
    | (true, st2) =>
      { ret := none
        ctx := ctx_set_port { ctx with user_ip4 := backend.address } backend.port
        st := st2, metrics := []
        slotUsed := slotUsed, backendUsed := some backend_id }

/-- `__sock4_xlate_fwd`: forward translation.  `prandom` is this call's
`get_prandom_u32()` draw; the affinity client identity is the caller's
netns cookie, written by `ctx_in_hostns`. -/
def sock4_xlate_fwd (cfg : LBConfig) (st : LBState) (ctx ctx_full : SockAddrCtx)
    (udp_only : Bool) (prandom : Nat) : FwdRes :=
  let client := ctx_full.netns_cookie
  let in_hostns := ctx_in_hostns cfg ctx_full
  let key : Lb4Key := { address := ctx.user_ip4, dport := ctx_dst_port ctx
                        backend_slot := 0 }
  let orig_key := key
  if cfg.socket_lb_host_only && !in_hostns then
    { ret := some SockErr.ENXIO, ctx := ctx, st := st, metrics := []
      slotUsed := none, backendUsed := none }
  else if !udp_only && !sock_proto_enabled ctx.protocol then
    { ret := some .ENOTSUP, ctx := ctx, st := st, metrics := []
      slotUsed := none, backendUsed := none }
  else
    match sock4_resolve_service cfg st key in_hostns with
    | (none, _) =>
      { ret := some SockErr.ENXIO, ctx := ctx, st := st, metrics := []
        slotUsed := none, backendUsed := none }
    | (some svc, key1) =>
      if sock4_skip_xlate cfg st svc orig_key.address then
        { ret := some .EPERM, ctx := ctx, st := st, metrics := []
          slotUsed := none, backendUsed := none }
      else
        match sock4_affinity_backend st svc client with
        | some hit =>
          sock4_fwd_tail cfg st ctx ctx_full svc orig_key client hit.1
            hit.2 true none
        | none =>
          let slot := (sock_select_slot prandom ctx_full % svc.count) + 1
          let key2 := { key1 with backend_slot := slot }
          match lb4_lookup_backend_slot st key2 with
          | none =>
            { ret := some .ENOENT, ctx := ctx, st := st
              metrics := [(METRIC_EGRESS, REASON_LB_NO_BACKEND_SLOT)]
              slotUsed := some slot, backendUsed := none }
          | some backend_slot =>
            match lb4_lookup_backend st backend_slot.backend_id with
            | none =>
              { ret := some .ENOENT, ctx := ctx, st := st
                metrics := [(METRIC_EGRESS, REASON_LB_NO_BACKEND)]
                slotUsed := some slot, backendUsed := none }
            | some backend =>
              sock4_fwd_tail cfg st ctx ctx_full svc orig_key client
                backend_slot.backend_id backend false (some slot)

/-- Result of one reverse-translation invocation. -/
structure RevRes where
  ret : Option SockErr
  ctx : SockAddrCtx
  st : LBState
  metrics : List (Nat × Nat)

/-- `__sock4_xlate_rev`: reverse translation with staleness detection;
a stale or orphaned cache entry is deleted and reported as `ENOENT`
(with the stale-metric), a plain cache miss as `ENXIO`. -/
def sock4_xlate_rev (cfg : LBConfig) (st : LBState) (ctx ctx_full : SockAddrCtx) :
    RevRes :=
  let key : RevnatTuple :=
    { cookie := sock_local_cookie ctx_full
      address := ctx.user_ip4
      port := ctx_dst_port ctx }
  match st.revnat key with
  | some val =>
    let svc_key : Lb4Key := { address := val.address, dport := val.port
                              backend_slot := 0 }
    let svc := (sock4_resolve_service cfg st svc_key
                  (ctx_in_hostns cfg ctx_full)).1
    let stale := match svc with
                 | none => true
                 | some s => s.rev_nat_index != val.rev_nat_index
    if stale then
      { ret := some .ENOENT, ctx := ctx
        st := { st with revnat := fun k => if k = key then none else st.revnat k }
        metrics := [(METRIC_INGRESS, REASON_LB_REVNAT_STALE)] }
    else
      { ret := none
        ctx := ctx_set_port { ctx with user_ip4 := val.address } val.port
        st := st, metrics := [] }
  | none =>
    { ret := some SockErr.ENXIO, ctx := ctx, st := st, metrics := [] }

/-- `__sock4_health_fwd` with ENABLE_HEALTH_CHECK: divert a recognized
health-probe socket to its registered peer port, rejecting the connect
when no registration exists (unless L4 DNAT is skipped entirely). -/
def sock4_health_fwd (cfg : LBConfig) (st : LBState) (ctx : SockAddrCtx) :
    Nat × SockAddrCtx :=
  let ret := if cfg.skip_l4_dnat then SYS_PROCEED else SYS_REJECT
  let val := if !cfg.skip_l4_dnat then st.health ctx.sock_cookie else none
  match val with
  | some v => (SYS_PROCEED, ctx_set_port ctx v.port)
  | none => (ret, ctx)

/-- Result of a hook entry point: the verdict handed to the kernel plus
the final context, state and metrics. -/
structure HookRes where
  verdict : Nat
  ctx : SockAddrCtx
  st : LBState
  metrics : List (Nat × Nat)

/-- `sock4_connect` (cgroup/connect4). -/
def sock4_connect (cfg : LBConfig) (st : LBState) (ctx : SockAddrCtx)
    (prandom : Nat) : HookRes :=
  if sock_is_health_check ctx then
    let r := sock4_health_fwd cfg st ctx
    { verdict := r.1, ctx := r.2, st := st, metrics := [] }
  else
    let r := sock4_xlate_fwd cfg st ctx ctx false prandom
    { verdict := SYS_PROCEED, ctx := r.ctx, st := r.st, metrics := r.metrics }

/-- `sock4_sendmsg` (cgroup/sendmsg4). -/
def sock4_sendmsg (cfg : LBConfig) (st : LBState) (ctx : SockAddrCtx)
    (prandom : Nat) : HookRes :=
  let r := sock4_xlate_fwd cfg st ctx ctx true prandom
  { verdict := SYS_PROCEED, ctx := r.ctx, st := r.st, metrics := r.metrics }

/-- `sock4_recvmsg` (cgroup/recvmsg4). -/
def sock4_recvmsg (cfg : LBConfig) (st : LBState) (ctx : SockAddrCtx) : HookRes :=
  let r := sock4_xlate_rev cfg st ctx ctx
  { verdict := SYS_PROCEED, ctx := r.ctx, st := r.st, metrics := r.metrics }

/-- `sock4_getpeername` (cgroup/getpeername4). -/
def sock4_getpeername (cfg : LBConfig) (st : LBState) (ctx : SockAddrCtx) : HookRes :=
  let r := sock4_xlate_rev cfg st ctx ctx
  { verdict := SYS_PROCEED, ctx := r.ctx, st := r.st, metrics := r.metrics }

/-- `__sock4_post_bind` (ENABLE_NODEPORT): reject a host-namespace bind
whose (address, port) resolves — exactly, or by the single wildcard
attempt without remote hosts — to a NodePort, ExternalIP or
LoadBalancer service. -/
def sock4_post_bind_inner (cfg : LBConfig) (st : LBState) (ctx ctx_full : SockCtx) :
    Option SockErr :=
  let key : Lb4Key := { address := ctx.src_ip4, dport := ctx_src_port ctx
                        backend_slot := 0 }
  if !sock_proto_enabled ctx.protocol || !sk_ctx_in_hostns cfg ctx_full then
    none
  else
    let svc := match lb4_lookup_service st key with
               | some s => some s
               | none => (sock4_wildcard_lookup cfg st key false false true).1
    match svc with
    | some s =>
      if s.flag_nodeport || s.flag_external_ip || s.flag_loadbalancer then
        some .EADDRINUSE
      else none
    | none => none

/-- `sock4_post_bind` (cgroup/post_bind4). -/
def sock4_post_bind (cfg : LBConfig) (st : LBState) (ctx : SockCtx) : Nat :=
  match sock4_post_bind_inner cfg st ctx ctx with
  | some _ => SYS_REJECT
  | none => SYS_PROCEED

/-- A concrete node configuration used to instantiate the theorems
below on closed inputs. -/
def wcfg : LBConfig :=
  { host_netns_cookie := 100, host_id := 1, remote_node_id := 6,
    nodeport_min := 30000, nodeport_max := 32767,
    socket_lb_host_only := false, skip_l4_dnat := false,
    revnat_update_fails := false }

/-- The same configuration with the reverse-NAT cache reporting
capacity exhaustion on writes. -/
def wcfgFail : LBConfig := { wcfg with revnat_update_fails := true }

/-- A concrete plain service: one backend, reverse-NAT id 7, no flags. -/
def wsvc : Lb4Service :=
  { count := 1, backend_id := 0, rev_nat_index := 7,
    flag_external_ip := false, flag_hostport := false, flag_nodeport := false,
    flag_loadbalancer := false, flag_localredirect := false,
    flag_affinity := false }

/-- The plain service with session affinity enabled. -/
def wsvcAff : Lb4Service := { wsvc with flag_affinity := true }

/-- An external-IP flagged service. -/
def wsvcExt : Lb4Service := { wsvc with flag_external_ip := true }

/-- A NodePort-flagged service (frontend registered at the wildcard
address). -/
def wsvcNP : Lb4Service := { wsvc with flag_nodeport := true }

/-- The backend-slot entry for slot 1 of `wsvc`, pointing at backend 42. -/
def wslot : Lb4Service := { wsvc with backend_id := 42 }

/-- The backend-slot entry for slot 1 of `wsvcAff`. -/
def wslotAff : Lb4Service := { wsvcAff with backend_id := 42 }

/-- Concrete backend 42: address 2000, port 9000. -/
def wbackend : Lb4Backend := { address := 2000, port := 9000 }

/-- State: frontend (1000, 20480) is `wsvc` with slot 1 at backend 42;
all other tables empty. -/
def wst : LBState :=
  { services := fun k =>
      if k = { address := 1000, dport := 20480, backend_slot := 0 } then some wsvc
      else if k = { address := 1000, dport := 20480, backend_slot := 1 } then some wslot
      else none
    backends := fun i => if i = 42 then some wbackend else none
    ipcache := fun _ => none
    affinity := fun _ _ => none
    revnat := fun _ => none
    health := fun _ => none
    sk_listening := fun _ _ _ => false }

/-- State like `wst` but the service has affinity enabled. -/
def wstAff : LBState :=
  { wst with services := fun k =>
      if k = { address := 1000, dport := 20480, backend_slot := 0 } then some wsvcAff
      else if k = { address := 1000, dport := 20480, backend_slot := 1 } then some wslotAff
      else none }

/-- State whose frontend (1000, 20480) is the external-IP service and
whose ipcache is empty. -/
def wstExt : LBState :=
  { wst with services := fun k =>
      if k = { address := 1000, dport := 20480, backend_slot := 0 } then some wsvcExt
      else none }

/-- State holding a reverse-NAT cache entry recorded under reverse-NAT
id 7 while the live service now carries id 8 (a stale entry). -/
def wstStale : LBState :=
  { wst with
    services := fun k =>
      if k = { address := 1000, dport := 20480, backend_slot := 0 }
      then some { wsvc with rev_nat_index := 8 } else none
    revnat := fun k =>
      if k = { cookie := 5, address := 2000, port := 9000 }
      then some { address := 1000, port := 20480, rev_nat_index := 7 }
      else none }

/-- A state with every table empty. -/
def wstEmpty : LBState :=
  { wst with services := fun _ => none, backends := fun _ => none }

/-- State for the bind-conflict and wildcard scenarios: the NodePort
service sits at the wildcard frontend (0, htons 30080) and address 1000
is classified with the host identity. -/
def wstNP : LBState :=
  { wst with
    services := fun k =>
      if k = { address := 0, dport := 32885, backend_slot := 0 } then some wsvcNP
      else none
    ipcache := fun a => if a = 1000 then some { sec_label := 1 } else none }

/-- The reverse-path context of the same socket: destination currently
holds the backend address (2000, 9000). -/
def wctxBack : SockAddrCtx :=
  { user_ip4 := 2000, user_port := 9000, protocol := 17,
    sock_cookie := 5, netns_cookie := 100, so_mark := none }

/-- A concrete UDP client context in the host namespace addressing the
frontend (1000, 20480) with socket cookie 5. -/
def wctx : SockAddrCtx :=
  { user_ip4 := 1000, user_port := 20480, protocol := 17,
    sock_cookie := 5, netns_cookie := 100, so_mark := none }

/-- A TCP context marked as a health-probe socket. -/
def wctxHealth : SockAddrCtx :=
  { user_ip4 := 0, user_port := 0, protocol := 6,
    sock_cookie := 1, netns_cookie := 100, so_mark := some MARK_MAGIC_HEALTH }

/-- A host-namespace TCP socket bound to the NodePort frontend port
30080 (host order). -/
def wbindHit : SockCtx :=
  { src_ip4 := 0, src_port := 30080, protocol := 6, netns_cookie := 100 }

/-- A host-namespace TCP socket bound to the frontend of the plain
(unflagged) service (1000, port 80 host order). -/
def wbindPlain : SockCtx :=
  { src_ip4 := 1000, src_port := 80, protocol := 6, netns_cookie := 100 }

/-- A host-namespace TCP socket bound to an unrelated port 40000. -/
def wbindMiss : SockCtx :=
  { src_ip4 := 0, src_port := 40000, protocol := 6, netns_cookie := 100 }

theorem sock4_update_revnat_true (cfg : LBConfig) (st : LBState)
    (ctxf : SockAddrCtx) (b : Lb4Backend) (ok : Lb4Key) (rid : Nat)
    (st2 : LBState)
    (h : sock4_update_revnat cfg st ctxf b ok rid = (true, st2)) :
    st2.services = st.services ∧ st2.ipcache = st.ipcache ∧
    st2.affinity = st.affinity ∧ st2.backends = st.backends ∧
    st2.revnat { cookie := sock_local_cookie ctxf, address := b.address,
                 port := b.port } =
      some { address := ok.address, port := ok.dport, rev_nat_index := rid } := by
  simp only [sock4_update_revnat] at h
  split at h
  · rename_i tmp heq
    split at h
    · rename_i hv
      simp only [Prod.mk.injEq, true_and] at h
      subst h
      subst hv
      exact ⟨rfl, rfl, rfl, rfl, heq⟩
    · split at h
      · simp at h
      · simp only [Prod.mk.injEq, true_and] at h
        subst h
        refine ⟨rfl, rfl, rfl, rfl, ?_⟩
        simp
  · rename_i heq
    split at h
    · simp at h
    · simp only [Prod.mk.injEq, true_and] at h
      subst h
      refine ⟨rfl, rfl, rfl, rfl, ?_⟩
      simp

theorem sock4_update_revnat_false (cfg : LBConfig) (st : LBState)
    (ctxf : SockAddrCtx) (b : Lb4Backend) (ok : Lb4Key) (rid : Nat)
    (st2 : LBState)
    (h : sock4_update_revnat cfg st ctxf b ok rid = (false, st2)) :
    st2 = st := by
  simp only [sock4_update_revnat] at h
  split at h
  · split at h
    · simp at h
    · split at h
      · simp only [Prod.mk.injEq] at h
        exact h.2.symm
      · simp at h
  · split at h
    · simp only [Prod.mk.injEq] at h
      exact h.2.symm
    · simp at h

theorem lb4_update_affinity_fields (st : LBState) (svc : Lb4Service)
    (client : Nat) (bid : Nat) :
    (lb4_update_affinity_by_netns st svc client bid).services = st.services ∧
    (lb4_update_affinity_by_netns st svc client bid).ipcache = st.ipcache ∧
    (lb4_update_affinity_by_netns st svc client bid).revnat = st.revnat ∧
    (lb4_update_affinity_by_netns st svc client bid).backends = st.backends ∧
    (lb4_update_affinity_by_netns st svc client bid).affinity
      svc.rev_nat_index client = some bid := by
  refine ⟨rfl, rfl, rfl, rfl, ?_⟩
  simp [lb4_update_affinity_by_netns]

theorem sock4_resolve_service_congr (cfg : LBConfig) (st st2 : LBState)
    (key : Lb4Key) (hns : Bool)
    (hs : st2.services = st.services) (hi : st2.ipcache = st.ipcache) :
    sock4_resolve_service cfg st2 key hns = sock4_resolve_service cfg st key hns := by
  simp only [sock4_resolve_service, sock4_wildcard_lookup_full,
             sock4_wildcard_lookup, lb4_lookup_service, ipcache_lookup4, hs, hi]

theorem sock4_fwd_tail_success (cfg : LBConfig) (st : LBState)
    (ctx ctx_full : SockAddrCtx) (svc : Lb4Service) (orig_key : Lb4Key)
    (client bid : Nat) (backend : Lb4Backend) (bfa : Bool)
    (slotU : Option Nat) (r : FwdRes)
    (h : sock4_fwd_tail cfg st ctx ctx_full svc orig_key client bid backend
           bfa slotU = r)
    (hret : r.ret = none) :
    r.ctx = { ctx with user_ip4 := backend.address, user_port := backend.port } ∧
    r.st.services = st.services ∧ r.st.ipcache = st.ipcache ∧
    r.st.revnat { cookie := sock_local_cookie ctx_full,
                  address := backend.address, port := backend.port } =
      some { address := orig_key.address, port := orig_key.dport,
             rev_nat_index := svc.rev_nat_index } ∧
    r.backendUsed = some bid := by
  simp only [sock4_fwd_tail] at h
  split at h
  · subst h; simp at hret
  · split at h
    · subst h; simp at hret
    · rename_i st2 hupd
      subst h
      split at hupd
      · have hfields := sock4_update_revnat_true cfg _ ctx_full backend orig_key
          svc.rev_nat_index st2 hupd
        have haf := lb4_update_affinity_fields st svc client bid
        exact ⟨rfl, hfields.1.trans haf.1, hfields.2.1.trans haf.2.1,
               hfields.2.2.2.2, rfl⟩
      · have hfields := sock4_update_revnat_true cfg _ ctx_full backend orig_key
          svc.rev_nat_index st2 hupd
        exact ⟨rfl, hfields.1, hfields.2.1, hfields.2.2.2.2, rfl⟩

theorem sock4_fwd_tail_error_frame (cfg : LBConfig) (st : LBState)
    (ctx ctx_full : SockAddrCtx) (svc : Lb4Service) (orig_key : Lb4Key)
    (client bid : Nat) (backend : Lb4Backend) (bfa : Bool)
    (slotU : Option Nat) (r : FwdRes) (e : SockErr)
    (h : sock4_fwd_tail cfg st ctx ctx_full svc orig_key client bid backend
           bfa slotU = r)
    (hret : r.ret = some e) :
    r.ctx = ctx := by
  simp only [sock4_fwd_tail] at h
  split at h
  · subst h; rfl
  · split at h
    · subst h; rfl
    · subst h; simp at hret

theorem sock4_affinity_backend_inv (st : LBState) (svc : Lb4Service)
    (client bid : Nat) (backend : Lb4Backend)
    (h : sock4_affinity_backend st svc client = some (bid, backend)) :
    svc.flag_affinity = true ∧ bid ≠ 0 ∧
    st.affinity svc.rev_nat_index client = some bid ∧
    st.backends bid = some backend := by
  simp only [sock4_affinity_backend] at h
  split at h
  · rename_i hfa
    split at h
    · rename_i hnz
      split at h
      · rename_i b hb
        simp only [Option.some.injEq, Prod.mk.injEq] at h
        obtain ⟨rfl, rfl⟩ := h
        simp only [lb4_affinity_backend_id_by_netns] at hb hnz ⊢
        refine ⟨hfa, ?_, ?_, ?_⟩
        · intro h0
          rw [h0] at hnz
          simp at hnz
        · split
          · rename_i b2 hb2
            rw [hb2]
          · rename_i hb2
            rw [hb2] at hnz
            simp at hnz
        · exact hb
      · simp at h
    · simp at h
  · simp at h

theorem sock4_xlate_fwd_success (cfg : LBConfig) (st : LBState)
    (ctx ctx_full : SockAddrCtx) (u : Bool) (p : Nat) (r : FwdRes)
    (h : sock4_xlate_fwd cfg st ctx ctx_full u p = r)
    (hret : r.ret = none) :
    ∃ svc key1 bid backend,
      sock4_resolve_service cfg st
        { address := ctx.user_ip4, dport := ctx_dst_port ctx, backend_slot := 0 }
        (ctx_in_hostns cfg ctx_full) = (some svc, key1) ∧
      st.backends bid = some backend ∧
      r.backendUsed = some bid ∧
      r.ctx = { ctx with user_ip4 := backend.address, user_port := backend.port } ∧
      r.st.services = st.services ∧ r.st.ipcache = st.ipcache ∧
      r.st.revnat { cookie := sock_local_cookie ctx_full,
                    address := backend.address, port := backend.port } =
        some { address := ctx.user_ip4, port := ctx_dst_port ctx,
               rev_nat_index := svc.rev_nat_index } := by
  simp only [sock4_xlate_fwd] at h
  split at h
  · subst h; simp at hret
  · split at h
    · subst h; simp at hret
    · split at h
      · subst h; simp at hret
      · rename_i svc key1 hres
        split at h
        · subst h; simp at hret
        · split at h
          · rename_i hit haffb
            obtain ⟨hfa, hnz, hentry, hback⟩ :=
              sock4_affinity_backend_inv st svc ctx_full.netns_cookie
                hit.1 hit.2 haffb
            obtain ⟨hc1, hc2, hc3, hc4, hc5⟩ :=
              sock4_fwd_tail_success _ _ _ _ _ _ _ _ _ _ _ _ h hret
            exact ⟨svc, key1, hit.1, hit.2, hres, hback, hc5, hc1, hc2, hc3, hc4⟩
          · rename_i haffb
            split at h
            · subst h; simp at hret
            · rename_i bslot hslot
              split at h
              · subst h; simp at hret
              · rename_i backend hbackend
                obtain ⟨hc1, hc2, hc3, hc4, hc5⟩ :=
                  sock4_fwd_tail_success _ _ _ _ _ _ _ _ _ _ _ _ h hret
                exact ⟨svc, key1, bslot.backend_id, backend, hres, hbackend,
                       hc5, hc1, hc2, hc3, hc4⟩

theorem sock4_xlate_fwd_error_frame (cfg : LBConfig) (st : LBState)
    (ctx ctx_full : SockAddrCtx) (u : Bool) (p : Nat) (r : FwdRes) (e : SockErr)
    (h : sock4_xlate_fwd cfg st ctx ctx_full u p = r)
    (hret : r.ret = some e) :
    r.ctx = ctx := by
  simp only [sock4_xlate_fwd] at h
  split at h
  · subst h; rfl
  · split at h
    · subst h; rfl
    · split at h
      · subst h; rfl
      · rename_i svc key1 hres
        split at h
        · subst h; rfl
        · split at h
          · exact sock4_fwd_tail_error_frame _ _ _ _ _ _ _ _ _ _ _ _ e h hret
          · split at h
            · subst h; rfl
            · split at h
              · subst h; rfl
              · exact sock4_fwd_tail_error_frame _ _ _ _ _ _ _ _ _ _ _ _ e h hret

theorem sock4_update_revnat_ok (cfg : LBConfig) (st : LBState)
    (ctxf : SockAddrCtx) (b : Lb4Backend) (ok : Lb4Key) (rid : Nat)
    (hnf : cfg.revnat_update_fails = false) :
    (sock4_update_revnat cfg st ctxf b ok rid).1 = true := by
  simp only [sock4_update_revnat]
  split
  · split
    · rfl
    · rw [hnf]; simp
  · rw [hnf]; simp

theorem sock4_fwd_tail_ok (cfg : LBConfig) (st : LBState)
    (ctx ctx_full : SockAddrCtx) (svc : Lb4Service) (okey : Lb4Key)
    (client bid : Nat) (backend : Lb4Backend) (bfa : Bool) (slotU : Option Nat)
    (hlr : (svc.flag_localredirect &&
            sock4_skip_xlate_if_same_netns st ctx_full backend) = false)
    (hnf : cfg.revnat_update_fails = false) :
    (sock4_fwd_tail cfg st ctx ctx_full svc okey client bid backend bfa
       slotU).ret = none ∧
    (sock4_fwd_tail cfg st ctx ctx_full svc okey client bid backend bfa
       slotU).ctx =
      { ctx with user_ip4 := backend.address, user_port := backend.port } ∧
    (sock4_fwd_tail cfg st ctx ctx_full svc okey client bid backend bfa
       slotU).backendUsed = some bid := by
  simp only [sock4_fwd_tail, hlr, Bool.false_eq_true, if_false]
  split
  · rename_i st2 hupd
    have hok := sock4_update_revnat_ok cfg
      (if (svc.flag_affinity && !bfa) = true
       then lb4_update_affinity_by_netns st svc client bid else st)
      ctx_full backend okey svc.rev_nat_index hnf
    rw [hupd] at hok
    simp at hok
  · exact ⟨rfl, rfl, rfl⟩

theorem sock4_fwd_tail_affinity (cfg : LBConfig) (st : LBState)
    (ctx ctx_full : SockAddrCtx) (svc : Lb4Service) (okey : Lb4Key)
    (client bid : Nat) (backend : Lb4Backend) (bfa : Bool) (slotU : Option Nat)
    (r : FwdRes)
    (h : sock4_fwd_tail cfg st ctx ctx_full svc okey client bid backend bfa
           slotU = r)
    (hret : r.ret = none) :
    r.st.affinity svc.rev_nat_index client =
      if (svc.flag_affinity && !bfa) = true then some bid
      else st.affinity svc.rev_nat_index client := by
  simp only [sock4_fwd_tail] at h
  split at h
  · subst h; simp at hret
  · split at h
    · subst h; simp at hret
    · rename_i st2 hupd
      subst h
      split at hupd
      · rename_i hcond
        have hfields := sock4_update_revnat_true cfg _ ctx_full backend okey
          svc.rev_nat_index st2 hupd
        rw [if_pos hcond]
        rw [show st2.affinity =
              (lb4_update_affinity_by_netns st svc client bid).affinity from
              hfields.2.2.1]
        exact (lb4_update_affinity_fields st svc client bid).2.2.2.2
      · rename_i hcond
        have hfields := sock4_update_revnat_true cfg _ ctx_full backend okey
          svc.rev_nat_index st2 hupd
        rw [if_neg hcond]
        rw [show st2.affinity = st.affinity from hfields.2.2.1]

theorem sock4_xlate_fwd_affinity_post (cfg : LBConfig) (st : LBState)
    (ctx ctx_full : SockAddrCtx) (u : Bool) (p : Nat) (r : FwdRes)
    (svc : Lb4Service) (key1 : Lb4Key) (bid : Nat)
    (h : sock4_xlate_fwd cfg st ctx ctx_full u p = r)
    (hret : r.ret = none)
    (hres : sock4_resolve_service cfg st
        { address := ctx.user_ip4, dport := ctx_dst_port ctx, backend_slot := 0 }
        (ctx_in_hostns cfg ctx_full) = (some svc, key1))
    (haff : svc.flag_affinity = true)
    (hbid : r.backendUsed = some bid) :
    r.st.affinity svc.rev_nat_index ctx_full.netns_cookie = some bid := by
  simp only [sock4_xlate_fwd, hres] at h
  split at h
  · subst h; simp at hret
  · split at h
    · subst h; simp at hret
    · split at h
      · subst h; simp at hret
      · split at h
        · rename_i hit haffb
          obtain ⟨hfa, hnz, hentry, hback⟩ :=
            sock4_affinity_backend_inv st svc ctx_full.netns_cookie
              hit.1 hit.2 haffb
          have haffpost := sock4_fwd_tail_affinity _ _ _ _ _ _ _ _ _ _ _ _ h hret
          obtain ⟨hc1, hc2, hc3, hc4, hc5⟩ :=
            sock4_fwd_tail_success _ _ _ _ _ _ _ _ _ _ _ _ h hret
          rw [hc5] at hbid
          obtain rfl : hit.1 = bid := by
            simpa using hbid
          rw [haffpost]
          simp [hentry]
        · rename_i haffb
          split at h
          · subst h; simp at hret
          · rename_i bslot hslot
            split at h
            · subst h; simp at hret
            · rename_i backend hbackend
              have haffpost := sock4_fwd_tail_affinity _ _ _ _ _ _ _ _ _ _ _ _ h hret
              obtain ⟨hc1, hc2, hc3, hc4, hc5⟩ :=
                sock4_fwd_tail_success _ _ _ _ _ _ _ _ _ _ _ _ h hret
              rw [hc5] at hbid
              obtain rfl : bslot.backend_id = bid := by
                simpa using hbid
              rw [haffpost]
              simp [haff]

theorem sock4_fwd_tail_nomem (cfg : LBConfig) (st : LBState)
    (ctx ctx_full : SockAddrCtx) (svc : Lb4Service) (okey : Lb4Key)
    (client bid : Nat) (backend : Lb4Backend) (slotU : Option Nat) (r : FwdRes)
    (h : sock4_fwd_tail cfg st ctx ctx_full svc okey client bid backend false
           slotU = r)
    (hlr : (svc.flag_localredirect &&
            sock4_skip_xlate_if_same_netns st ctx_full backend) = false)
    (haff : svc.flag_affinity = true)
    (hfail : cfg.revnat_update_fails = true)
    (hnodup : st.revnat { cookie := sock_local_cookie ctx_full,
                          address := backend.address, port := backend.port } ≠
              some { address := okey.address, port := okey.dport,
                     rev_nat_index := svc.rev_nat_index }) :
    r.ret = some .ENOMEM ∧ r.ctx = ctx ∧
    r.st.affinity svc.rev_nat_index client = some bid ∧
    r.metrics = [(METRIC_EGRESS, REASON_LB_REVNAT_UPDATE)] := by
  simp only [sock4_fwd_tail, hlr, haff, Bool.false_eq_true, if_false,
             Bool.not_false, Bool.and_true, if_true, sock4_update_revnat,
             hfail] at h
  split at h
  · rename_i tmp heq
    subst h
    split at heq
    · rename_i tmp2 heq2
      split at heq
      · simp at heq
      · simp only [Prod.mk.injEq, true_and] at heq
        subst heq
        exact ⟨rfl, rfl,
               (lb4_update_affinity_fields st svc client bid).2.2.2.2, rfl⟩
    · simp only [Prod.mk.injEq, true_and] at heq
      subst heq
      exact ⟨rfl, rfl,
             (lb4_update_affinity_fields st svc client bid).2.2.2.2, rfl⟩
  · rename_i st2 heq
    subst h
    split at heq
    · rename_i tmp2 heq2
      split at heq
      · rename_i hv
        exfalso
        apply hnodup
        rw [← hv]
        exact heq2
      · simp at heq
    · simp at heq

theorem sock4_fwd_tail_slotUsed (cfg : LBConfig) (st : LBState)
    (ctx ctx_full : SockAddrCtx) (svc : Lb4Service) (okey : Lb4Key)
    (client bid : Nat) (backend : Lb4Backend) (bfa : Bool)
    (slotU : Option Nat) :
    (sock4_fwd_tail cfg st ctx ctx_full svc okey client bid backend bfa
       slotU).slotUsed = slotU := by
  simp only [sock4_fwd_tail]
  split
  · rfl
  · split <;> rfl

/-- C9: every non-success outcome of the forward translation leaves the
destination address and port of the socket context untouched; only the
success path rewrites them, and then exactly to the address and port of
a backend looked up in the backend table. -/
theorem sock4_xlate_fwd_frame_on_error (cfg : LBConfig) (st : LBState)
    (ctx ctx_full : SockAddrCtx) (u : Bool) (p : Nat) :
    (∀ e, (sock4_xlate_fwd cfg st ctx ctx_full u p).ret = some e →
       (sock4_xlate_fwd cfg st ctx ctx_full u p).ctx = ctx) ∧
    ((sock4_xlate_fwd cfg st ctx ctx_full u p).ret = none →
      ∃ bid backend, st.backends bid = some backend ∧
        (sock4_xlate_fwd cfg st ctx ctx_full u p).backendUsed = some bid ∧
        (sock4_xlate_fwd cfg st ctx ctx_full u p).ctx =
          { ctx with user_ip4 := backend.address,
                     user_port := backend.port }) := by
  constructor
  · intro e he
    exact sock4_xlate_fwd_error_frame cfg st ctx ctx_full u p _ e rfl he
  · intro hn
    obtain ⟨svc, key1, bid, backend, h1, h2, h3, h4, h5⟩ :=
      sock4_xlate_fwd_success cfg st ctx ctx_full u p _ rfl hn
    exact ⟨bid, backend, h2, h3, h4⟩

theorem sock4_xlate_fwd_frame_on_error_witness :
    (sock4_xlate_fwd wcfg wstEmpty wctx wctx false 0).ctx = wctx ∧
    (∃ bid backend, wst.backends bid = some backend ∧
      (sock4_xlate_fwd wcfg wst wctx wctx false 3).backendUsed = some bid ∧
      (sock4_xlate_fwd wcfg wst wctx wctx false 3).ctx =
        { wctx with user_ip4 := backend.address,
                    user_port := backend.port }) :=
  ⟨(sock4_xlate_fwd_frame_on_error wcfg wstEmpty wctx wctx false 0).1
     SockErr.ENXIO (by decide),
   (sock4_xlate_fwd_frame_on_error wcfg wst wctx wctx false 3).2 (by decide)⟩

/-- C2: when the forward translation matches a service flagged
external-IP (or flagged HostPort with a non-loopback original
destination) and the trust classification of the original destination
does not resolve to the host identity, the call reports Permission and
leaves both the socket context and the state untouched, independent of
any backend availability. -/
theorem sock4_xlate_fwd_eperm (cfg : LBConfig) (st : LBState)
    (ctx ctx_full : SockAddrCtx) (u : Bool) (p : Nat) (svc : Lb4Service)
    (key1 : Lb4Key)
    (hg1 : (cfg.socket_lb_host_only && !ctx_in_hostns cfg ctx_full) = false)
    (hg2 : (!u && !sock_proto_enabled ctx.protocol) = false)
    (hres : sock4_resolve_service cfg st
        { address := ctx.user_ip4, dport := ctx_dst_port ctx, backend_slot := 0 }
        (ctx_in_hostns cfg ctx_full) = (some svc, key1))
    (hflag : (svc.flag_external_ip ||
              (svc.flag_hostport && !is_v4_loopback ctx.user_ip4)) = true)
    (hid : ∀ info, st.ipcache ctx.user_ip4 = some info →
             info.sec_label ≠ cfg.host_id) :
    (sock4_xlate_fwd cfg st ctx ctx_full u p).ret = some .EPERM ∧
    (sock4_xlate_fwd cfg st ctx ctx_full u p).ctx = ctx ∧
    (sock4_xlate_fwd cfg st ctx ctx_full u p).st = st := by
  have hskip : sock4_skip_xlate cfg st svc ctx.user_ip4 = true := by
    simp only [sock4_skip_xlate, hflag, if_true, ipcache_lookup4]
    cases hip : st.ipcache ctx.user_ip4 with
    | none => rfl
    | some info => simpa [bne_iff_ne] using hid info hip
  simp only [sock4_xlate_fwd, hg1, hg2, hres, hskip, Bool.false_eq_true,
             if_false, if_true]
  exact ⟨trivial, trivial, trivial⟩

theorem sock4_xlate_fwd_eperm_witness :
    (sock4_xlate_fwd wcfg wstExt wctx wctx false 0).ret = some .EPERM ∧
    (sock4_xlate_fwd wcfg wstExt wctx wctx false 0).ctx = wctx ∧
    (sock4_xlate_fwd wcfg wstExt wctx wctx false 0).st = wstExt :=
  sock4_xlate_fwd_eperm wcfg wstExt wctx wctx false 0 wsvcExt
    { address := 1000, dport := 20480, backend_slot := 0 }
    (by decide) (by decide) (by decide) (by decide)
    (fun info h => by simp [wstExt, wst] at h)

/-- C3: a reverse lookup that finds a cached entry whose recorded
reverse-NAT identifier no longer matches the live service (or whose
service no longer resolves even via wildcard) deletes the entry,
reports the staleness miss ENOENT with the stale metric (distinct from
the plain ENXIO not-found miss), and leaves the address untranslated;
an immediately repeated identical reverse lookup then reports the plain
ENXIO miss. -/
theorem sock4_xlate_rev_stale (cfg : LBConfig) (st : LBState)
    (ctx ctx_full : SockAddrCtx) (val : RevnatEntry)
    (hentry : st.revnat { cookie := sock_local_cookie ctx_full,
                          address := ctx.user_ip4,
                          port := ctx_dst_port ctx } = some val)
    (hstale : ∀ s, (sock4_resolve_service cfg st
        { address := val.address, dport := val.port, backend_slot := 0 }
        (ctx_in_hostns cfg ctx_full)).1 = some s →
        s.rev_nat_index ≠ val.rev_nat_index) :
    (sock4_xlate_rev cfg st ctx ctx_full).ret = some .ENOENT ∧
    (sock4_xlate_rev cfg st ctx ctx_full).ctx = ctx ∧
    (sock4_xlate_rev cfg st ctx ctx_full).st.revnat
      { cookie := sock_local_cookie ctx_full, address := ctx.user_ip4,
        port := ctx_dst_port ctx } = none ∧
    (sock4_xlate_rev cfg st ctx ctx_full).metrics =
      [(METRIC_INGRESS, REASON_LB_REVNAT_STALE)] ∧
    (sock4_xlate_rev cfg (sock4_xlate_rev cfg st ctx ctx_full).st ctx
       ctx_full).ret = some SockErr.ENXIO ∧
    (sock4_xlate_rev cfg (sock4_xlate_rev cfg st ctx ctx_full).st ctx
       ctx_full).ctx = ctx := by
  have hstaleb : (match (sock4_resolve_service cfg st
      { address := val.address, dport := val.port, backend_slot := 0 }
      (ctx_in_hostns cfg ctx_full)).1 with
      | none => true
      | some s => s.rev_nat_index != val.rev_nat_index) = true := by
    cases hres : (sock4_resolve_service cfg st
        { address := val.address, dport := val.port, backend_slot := 0 }
        (ctx_in_hostns cfg ctx_full)).1 with
    | none => rfl
    | some s => simpa [bne_iff_ne] using hstale s hres
  simp only [sock4_xlate_rev, hentry, hstaleb, if_true]
  refine ⟨trivial, trivial, by simp, trivial, ?_, ?_⟩ <;> simp

theorem sock4_xlate_rev_stale_witness :
    (sock4_xlate_rev wcfg wstStale wctxBack wctxBack).ret = some .ENOENT ∧
    (sock4_xlate_rev wcfg wstStale wctxBack wctxBack).ctx = wctxBack ∧
    (sock4_xlate_rev wcfg wstStale wctxBack wctxBack).st.revnat
      { cookie := sock_local_cookie wctxBack, address := wctxBack.user_ip4,
        port := ctx_dst_port wctxBack } = none ∧
    (sock4_xlate_rev wcfg wstStale wctxBack wctxBack).metrics =
      [(METRIC_INGRESS, REASON_LB_REVNAT_STALE)] ∧
    (sock4_xlate_rev wcfg (sock4_xlate_rev wcfg wstStale wctxBack
       wctxBack).st wctxBack wctxBack).ret = some SockErr.ENXIO ∧
    (sock4_xlate_rev wcfg (sock4_xlate_rev wcfg wstStale wctxBack
       wctxBack).st wctxBack wctxBack).ctx = wctxBack :=
  sock4_xlate_rev_stale wcfg wstStale wctxBack wctxBack
    { address := 1000, port := 20480, rev_nat_index := 7 }
    (by decide)
    (fun s hs => by
      have hval : (sock4_resolve_service wcfg wstStale
          { address := 1000, dport := 20480, backend_slot := 0 }
          (ctx_in_hostns wcfg wctxBack)).1 =
          some { wsvc with rev_nat_index := 8 } := by decide
      rw [hval] at hs
      exact (Option.some.inj hs) ▸ (by decide))

/-- C5: a post-bind in the host namespace with an enabled protocol is
rejected when the bound (address, port) resolves — exactly, or by the
single HostPort-free wildcard attempt — to a service flagged NodePort,
ExternalIP or LoadBalancer, and proceeds when the bound (address, port)
matches no such flagged service: when neither lookup matches any
service, and also when the matched service (exact or wildcard) carries
none of those flags. -/
theorem sock4_post_bind_conflict (cfg : LBConfig) (st : LBState)
    (ctx : SockCtx)
    (hproto : sock_proto_enabled ctx.protocol = true)
    (hns : sk_ctx_in_hostns cfg ctx = true) :
    (∀ svc, lb4_lookup_service st
        { address := ctx.src_ip4, dport := ctx_src_port ctx,
          backend_slot := 0 } = some svc →
      (svc.flag_nodeport || svc.flag_external_ip ||
       svc.flag_loadbalancer) = true →
      sock4_post_bind cfg st ctx = SYS_REJECT) ∧
    (∀ svc, lb4_lookup_service st
        { address := ctx.src_ip4, dport := ctx_src_port ctx,
          backend_slot := 0 } = none →
      (sock4_wildcard_lookup cfg st
        { address := ctx.src_ip4, dport := ctx_src_port ctx,
          backend_slot := 0 } false false true).1 = some svc →
      (svc.flag_nodeport || svc.flag_external_ip ||
       svc.flag_loadbalancer) = true →
      sock4_post_bind cfg st ctx = SYS_REJECT) ∧
    (lb4_lookup_service st
        { address := ctx.src_ip4, dport := ctx_src_port ctx,
          backend_slot := 0 } = none →
     (sock4_wildcard_lookup cfg st
        { address := ctx.src_ip4, dport := ctx_src_port ctx,
          backend_slot := 0 } false false true).1 = none →
     sock4_post_bind cfg st ctx = SYS_PROCEED) ∧
    (∀ svc, lb4_lookup_service st
        { address := ctx.src_ip4, dport := ctx_src_port ctx,
          backend_slot := 0 } = some svc →
      (svc.flag_nodeport || svc.flag_external_ip ||
       svc.flag_loadbalancer) = false →
      sock4_post_bind cfg st ctx = SYS_PROCEED) ∧
    (∀ svc, lb4_lookup_service st
        { address := ctx.src_ip4, dport := ctx_src_port ctx,
          backend_slot := 0 } = none →
      (sock4_wildcard_lookup cfg st
        { address := ctx.src_ip4, dport := ctx_src_port ctx,
          backend_slot := 0 } false false true).1 = some svc →
      (svc.flag_nodeport || svc.flag_external_ip ||
       svc.flag_loadbalancer) = false →
      sock4_post_bind cfg st ctx = SYS_PROCEED) := by
  refine ⟨?_, ?_, ?_, ?_, ?_⟩
  · intro svc hexact hflags
    simp [sock4_post_bind, sock4_post_bind_inner, hproto, hns, hexact, hflags]
  · intro svc hexact hwild hflags
    simp [sock4_post_bind, sock4_post_bind_inner, hproto, hns, hexact, hwild,
          hflags]
  · intro hexact hwild
    simp [sock4_post_bind, sock4_post_bind_inner, hproto, hns, hexact, hwild]
  · intro svc hexact hflags
    simp [sock4_post_bind, sock4_post_bind_inner, hproto, hns, hexact, hflags]
  · intro svc hexact hwild hflags
    simp [sock4_post_bind, sock4_post_bind_inner, hproto, hns, hexact, hwild,
          hflags]

theorem sock4_post_bind_conflict_witness :
    sock4_post_bind wcfg wstNP wbindHit = SYS_REJECT ∧
    sock4_post_bind wcfg wstNP wbindMiss = SYS_PROCEED ∧
    sock4_post_bind wcfg wst wbindPlain = SYS_PROCEED :=
  ⟨(sock4_post_bind_conflict wcfg wstNP wbindHit (by decide) (by decide)).1
     wsvcNP (by decide) (by decide),
   (sock4_post_bind_conflict wcfg wstNP wbindMiss (by decide)
     (by decide)).2.2.1 (by decide) (by decide),
   (sock4_post_bind_conflict wcfg wst wbindPlain (by decide)
     (by decide)).2.2.2.1 wsvc (by decide) (by decide)⟩

/-- C1: after a successful forward translation that rewrote the
destination from the frontend to a backend and recorded the
reverse-cache entry, an immediate reverse lookup on the resulting
context (same socket cookie, destination now the backend address and
port; the service directory, trust cache and the recorded entry
unchanged, hence the reverse-NAT identifier unchanged and the entry not
evicted) succeeds and restores exactly the original frontend address
and port. -/
theorem sock4_fwd_rev_roundtrip (cfg : LBConfig) (st : LBState)
    (ctx : SockAddrCtx) (u : Bool) (p : Nat) (r : FwdRes)
    (h : sock4_xlate_fwd cfg st ctx ctx u p = r)
    (hret : r.ret = none)
    (hport : r.ctx.user_port < 65536) :
    (sock4_xlate_rev cfg r.st r.ctx r.ctx).ret = none ∧
    (sock4_xlate_rev cfg r.st r.ctx r.ctx).ctx.user_ip4 = ctx.user_ip4 ∧
    (sock4_xlate_rev cfg r.st r.ctx r.ctx).ctx.user_port = ctx_dst_port ctx := by
  obtain ⟨svc, key1, bid, backend, hres, hback, hbu, hctx, hsvcs, hipc, hrev⟩ :=
    sock4_xlate_fwd_success cfg st ctx ctx u p r h hret
  have hplt : backend.port < 65536 := by rw [hctx] at hport; exact hport
  have hcook : sock_local_cookie r.ctx = ctx.sock_cookie := by
    simp [hctx, sock_local_cookie]
  have hip : r.ctx.user_ip4 = backend.address := by simp [hctx]
  have hpt : ctx_dst_port r.ctx = backend.port := by
    simp [hctx, ctx_dst_port, Nat.mod_eq_of_lt hplt]
  have hnsc : ctx_in_hostns cfg r.ctx = ctx_in_hostns cfg ctx := by
    simp [hctx, ctx_in_hostns]
  have hresolve : sock4_resolve_service cfg r.st
      { address := ctx.user_ip4, dport := ctx_dst_port ctx, backend_slot := 0 }
      (ctx_in_hostns cfg ctx) = (some svc, key1) := by
    rw [sock4_resolve_service_congr cfg st r.st _ _ hsvcs hipc, hres]
  simp only [sock_local_cookie] at hrev
  simp [sock4_xlate_rev, hcook, hip, hpt, hnsc, hrev, hresolve, ctx_set_port]

theorem sock4_fwd_rev_roundtrip_witness :
    (sock4_xlate_rev wcfg (sock4_xlate_fwd wcfg wst wctx wctx false 3).st
       (sock4_xlate_fwd wcfg wst wctx wctx false 3).ctx
       (sock4_xlate_fwd wcfg wst wctx wctx false 3).ctx).ret = none ∧
    (sock4_xlate_rev wcfg (sock4_xlate_fwd wcfg wst wctx wctx false 3).st
       (sock4_xlate_fwd wcfg wst wctx wctx false 3).ctx
       (sock4_xlate_fwd wcfg wst wctx wctx false 3).ctx).ctx.user_ip4 =
      wctx.user_ip4 ∧
    (sock4_xlate_rev wcfg (sock4_xlate_fwd wcfg wst wctx wctx false 3).st
       (sock4_xlate_fwd wcfg wst wctx wctx false 3).ctx
       (sock4_xlate_fwd wcfg wst wctx wctx false 3).ctx).ctx.user_port =
      ctx_dst_port wctx :=
  sock4_fwd_rev_roundtrip wcfg wst wctx false 3 _ rfl (by decide) (by decide)

/-- C7: for a connectionless (non-TCP) socket the forward translation
does not depend on the per-call pseudo-random draw — the per-socket
cookie drives selection — so two invocations against the same state
produce identical results; when the service has no affinity and
translation reaches fresh selection, the consulted slot index is
exactly (cookie mod backend count) + 1; TCP instead feeds this call's
pseudo-random draw into the slot selection. -/
theorem sock4_connectionless_determinism (cfg : LBConfig) (st : LBState)
    (ctx : SockAddrCtx) (u : Bool) (p1 p2 : Nat) (svc : Lb4Service)
    (key1 : Lb4Key)
    (hproto : ctx.protocol ≠ IPPROTO_TCP) :
    sock4_xlate_fwd cfg st ctx ctx u p1 = sock4_xlate_fwd cfg st ctx ctx u p2 ∧
    (sock4_resolve_service cfg st
        { address := ctx.user_ip4, dport := ctx_dst_port ctx, backend_slot := 0 }
        (ctx_in_hostns cfg ctx) = (some svc, key1) →
     svc.flag_affinity = false →
     (cfg.socket_lb_host_only && !ctx_in_hostns cfg ctx) = false →
     (!u && !sock_proto_enabled ctx.protocol) = false →
     sock4_skip_xlate cfg st svc ctx.user_ip4 = false →
     (sock4_xlate_fwd cfg st ctx ctx u p1).slotUsed =
       some (ctx.sock_cookie % svc.count + 1)) ∧
    (∀ q ctxT, ctxT.protocol = IPPROTO_TCP → sock_select_slot q ctxT = q) := by
  have hsel : ∀ q, sock_select_slot q ctx = ctx.sock_cookie := by
    intro q
    simp [sock_select_slot, sock_local_cookie, hproto]
  refine ⟨?_, ?_, ?_⟩
  · simp only [sock4_xlate_fwd, hsel]
  · intro hres haffv hg1 hg2 hskip
    have haffb : sock4_affinity_backend st svc ctx.netns_cookie = none := by
      simp [sock4_affinity_backend, haffv]
    simp only [sock4_xlate_fwd, hres, hg1, hg2, hskip, haffb, hsel,
               Bool.false_eq_true, if_false]
    split
    · rfl
    · split
      · rfl
      · exact sock4_fwd_tail_slotUsed _ _ _ _ _ _ _ _ _ _ _
  · intro q ctxT hT
    simp [sock_select_slot, hT]

theorem sock4_connectionless_determinism_witness :
    (sock4_xlate_fwd wcfg wst wctx wctx false 3 =
     sock4_xlate_fwd wcfg wst wctx wctx false 99) ∧
    (sock4_xlate_fwd wcfg wst wctx wctx false 3).slotUsed =
      some (wctx.sock_cookie % wsvc.count + 1) :=
  ⟨(sock4_connectionless_determinism wcfg wst wctx false 3 99 wsvc
      { address := 1000, dport := 20480, backend_slot := 0 }
      (by decide)).1,
   (sock4_connectionless_determinism wcfg wst wctx false 3 99 wsvc
      { address := 1000, dport := 20480, backend_slot := 0 }
      (by decide)).2.1 (by decide) (by decide) (by decide) (by decide)
      (by decide)⟩

/-- C4 (amended): the pre-send, pre-receive and peer-name-query hooks
always return proceed; the pre-connect hook returns proceed for every
socket that is not recognized as a health-probe socket.  (For a
health-probe socket with no registered peer, pre-connect rejects — see
the counterexample — so reject is not confined to the bind hooks.) -/
theorem sock4_nonbind_hooks_proceed (cfg : LBConfig) (st : LBState)
    (ctx : SockAddrCtx) (p : Nat) :
    (sock4_sendmsg cfg st ctx p).verdict = SYS_PROCEED ∧
    (sock4_recvmsg cfg st ctx).verdict = SYS_PROCEED ∧
    (sock4_getpeername cfg st ctx).verdict = SYS_PROCEED ∧
    (sock_is_health_check ctx = false →
      (sock4_connect cfg st ctx p).verdict = SYS_PROCEED) := by
  refine ⟨rfl, rfl, rfl, ?_⟩
  intro hh
  simp [sock4_connect, hh]

theorem sock4_nonbind_hooks_proceed_witness :
    (sock4_connect wcfg wstEmpty wctx 0).verdict = SYS_PROCEED :=
  (sock4_nonbind_hooks_proceed wcfg wstEmpty wctx 0).2.2.2 (by decide)

/-- C4 counterexample: a connect by a recognized health-probe socket
whose health registration is absent (and with L4 DNAT not skipped)
returns the reject verdict from the pre-connect hook, so the claim that
pre-connect never rejects is false on this input. -/
theorem sock4_connect_rejects_health_probe :
    (sock4_connect wcfg wstEmpty wctxHealth 0).verdict = SYS_REJECT ∧
    (sock4_connect wcfg wstEmpty wctxHealth 0).verdict ≠ SYS_PROCEED := by
  decide

/-- C8: when the exact service lookup misses, the wildcard fallback
makes the NodePort attempt first (remote hosts included, normal port
range test) and accepts its result only with the NodePort flag; only
when that yields no accepted result does it make the HostPort attempt
(remote hosts excluded, port-range test inverted), accepting only with
the HostPort flag; a result lacking the required flag is no match. -/
theorem sock4_wildcard_order_filtering (cfg : LBConfig) (st : LBState)
    (key : Lb4Key) (hns : Bool) :
    (∀ s, (sock4_wildcard_lookup_full cfg st key hns).1 = some s →
       ((sock4_wildcard_lookup cfg st key true false hns).1 = some s ∧
        s.flag_nodeport = true) ∨
       ((∀ t, (sock4_wildcard_lookup cfg st key true false hns).1 = some t →
           t.flag_nodeport = false) ∧
        (sock4_wildcard_lookup cfg st
           (sock4_wildcard_lookup cfg st key true false hns).2
           false true hns).1 = some s ∧
        s.flag_hostport = true)) ∧
    ((sock4_wildcard_lookup_full cfg st key hns).1 = none →
       (∀ t, (sock4_wildcard_lookup cfg st key true false hns).1 = some t →
          t.flag_nodeport = false) ∧
       (∀ t, (sock4_wildcard_lookup cfg st
            (sock4_wildcard_lookup cfg st key true false hns).2
            false true hns).1 = some t →
          t.flag_hostport = false)) := by
  rcases hr1 : sock4_wildcard_lookup cfg st key true false hns with ⟨o1, k1⟩
  rcases hr2 : sock4_wildcard_lookup cfg st k1 false true hns with ⟨o2, k2⟩
  simp only [sock4_wildcard_lookup_full, hr1, hr2]
  cases o1 with
  | some t1 =>
    cases ht1 : t1.flag_nodeport with
    | true =>
      simp only [ht1, Bool.not_true, Bool.false_eq_true, if_false]
      constructor
      · intro s hs
        exact Or.inl ⟨by rw [Option.some.inj hs], by
          rw [← Option.some.inj hs]; exact ht1⟩
      · intro hnone
        simp at hnone
    | false =>
      simp only [ht1, Bool.not_false, if_true]
      cases o2 with
      | some t2 =>
        cases ht2 : t2.flag_hostport with
        | true =>
          simp only [ht2, Bool.not_true, Bool.false_eq_true, if_false]
          constructor
          · intro s hs
            refine Or.inr ⟨?_, by rw [hs], by rw [← Option.some.inj hs]; exact ht2⟩
            intro t ht
            rw [← Option.some.inj ht]
            exact ht1
          · intro hnone
            simp at hnone
        | false =>
          simp only [ht2, Bool.not_false, if_true]
          constructor
          · intro s hs
            simp at hs
          · intro hnone
            constructor
            · intro t ht
              rw [← Option.some.inj ht]
              exact ht1
            · intro t ht
              rw [← Option.some.inj ht]
              exact ht2
      | none =>
        constructor
        · intro s hs
          simp at hs
        · intro hnone
          constructor
          · intro t ht
            rw [← Option.some.inj ht]
            exact ht1
          · intro t ht
            simp at ht
  | none =>
    cases o2 with
    | some t2 =>
      cases ht2 : t2.flag_hostport with
      | true =>
        simp only [ht2, Bool.not_true, Bool.false_eq_true, if_false]
        constructor
        · intro s hs
          refine Or.inr ⟨?_, by rw [hs], by rw [← Option.some.inj hs]; exact ht2⟩
          intro t ht
          simp at ht
        · intro hnone
          simp at hnone
      | false =>
        simp only [ht2, Bool.not_false, if_true]
        constructor
        · intro s hs
          simp at hs
        · intro hnone
          constructor
          · intro t ht
            simp at ht
          · intro t ht
            rw [← Option.some.inj ht]
            exact ht2
    | none =>
      constructor
      · intro s hs
        simp at hs
      · intro hnone
        constructor
        · intro t ht
          simp at ht
        · intro t ht
          simp at ht

theorem sock4_wildcard_order_filtering_witness :
    ((sock4_wildcard_lookup wcfg wstNP
        { address := 1000, dport := 32885, backend_slot := 0 }
        true false true).1 = some wsvcNP ∧ wsvcNP.flag_nodeport = true) ∨
    ((∀ t, (sock4_wildcard_lookup wcfg wstNP
        { address := 1000, dport := 32885, backend_slot := 0 }
        true false true).1 = some t → t.flag_nodeport = false) ∧
     (sock4_wildcard_lookup wcfg wstNP
        (sock4_wildcard_lookup wcfg wstNP
          { address := 1000, dport := 32885, backend_slot := 0 }
          true false true).2 false true true).1 = some wsvcNP ∧
     wsvcNP.flag_hostport = true) :=
  (sock4_wildcard_order_filtering wcfg wstNP
    { address := 1000, dport := 32885, backend_slot := 0 } true).1
    wsvcNP (by decide)

/-- C6: if a forward translation for an affinity-enabled service
succeeded choosing backend `bid` (thereby leaving the affinity entry
for this client set to `bid`), then a second forward translation from
the same client against any state that preserves that affinity entry
and in which backend `bid` still exists — the backend-slot layout may
have changed arbitrarily — resolves to the very same backend. -/
theorem sock4_affinity_stickiness (cfg : LBConfig) (st st2 : LBState)
    (ctx : SockAddrCtx) (u1 u2 : Bool) (p1 p2 : Nat) (r1 : FwdRes)
    (svc svc2 : Lb4Service) (key1 key2 : Lb4Key) (bid : Nat) (b : Lb4Backend)
    (h1 : sock4_xlate_fwd cfg st ctx ctx u1 p1 = r1)
    (hret1 : r1.ret = none)
    (hres1 : sock4_resolve_service cfg st
        { address := ctx.user_ip4, dport := ctx_dst_port ctx, backend_slot := 0 }
        (ctx_in_hostns cfg ctx) = (some svc, key1))
    (haff1 : svc.flag_affinity = true)
    (hbid : r1.backendUsed = some bid)
    (hbidnz : bid ≠ 0)
    (haff2 : st2.affinity svc.rev_nat_index ctx.netns_cookie =
             r1.st.affinity svc.rev_nat_index ctx.netns_cookie)
    (hback : st2.backends bid = some b)
    (hres2 : sock4_resolve_service cfg st2
        { address := ctx.user_ip4, dport := ctx_dst_port ctx, backend_slot := 0 }
        (ctx_in_hostns cfg ctx) = (some svc2, key2))
    (hafff2 : svc2.flag_affinity = true)
    (hrevi : svc2.rev_nat_index = svc.rev_nat_index)
    (hg1 : (cfg.socket_lb_host_only && !ctx_in_hostns cfg ctx) = false)
    (hg2 : (!u2 && !sock_proto_enabled ctx.protocol) = false)
    (hskip2 : sock4_skip_xlate cfg st2 svc2 ctx.user_ip4 = false)
    (hlr2 : (svc2.flag_localredirect &&
             sock4_skip_xlate_if_same_netns st2 ctx b) = false)
    (hnf : cfg.revnat_update_fails = false) :
    (sock4_xlate_fwd cfg st2 ctx ctx u2 p2).ret = none ∧
    (sock4_xlate_fwd cfg st2 ctx ctx u2 p2).backendUsed = some bid ∧
    (sock4_xlate_fwd cfg st2 ctx ctx u2 p2).ctx.user_ip4 = b.address ∧
    (sock4_xlate_fwd cfg st2 ctx ctx u2 p2).ctx.user_port = b.port := by
  have hpost := sock4_xlate_fwd_affinity_post cfg st ctx ctx u1 p1 r1 svc
    key1 bid h1 hret1 hres1 haff1 hbid
  have hentry2 : st2.affinity svc2.rev_nat_index ctx.netns_cookie = some bid := by
    rw [hrevi, haff2, hpost]
  have haffb2 : sock4_affinity_backend st2 svc2 ctx.netns_cookie =
      some (bid, b) := by
    simp [sock4_affinity_backend, hafff2, lb4_affinity_backend_id_by_netns,
          hentry2, hbidnz, lb4_lookup_backend, hback]
  have htail := sock4_fwd_tail_ok cfg st2 ctx ctx svc2
    { address := ctx.user_ip4, dport := ctx_dst_port ctx, backend_slot := 0 }
    ctx.netns_cookie bid b true none hlr2 hnf
  simp only [sock4_xlate_fwd, hres2, hg1, hg2, hskip2, haffb2,
             Bool.false_eq_true, if_false]
  exact ⟨htail.1, htail.2.2, by rw [htail.2.1], by rw [htail.2.1]⟩

theorem sock4_affinity_stickiness_witness :
    (sock4_xlate_fwd wcfg (sock4_xlate_fwd wcfg wstAff wctx wctx false 3).st
       wctx wctx false 99).ret = none ∧
    (sock4_xlate_fwd wcfg (sock4_xlate_fwd wcfg wstAff wctx wctx false 3).st
       wctx wctx false 99).backendUsed = some 42 ∧
    (sock4_xlate_fwd wcfg (sock4_xlate_fwd wcfg wstAff wctx wctx false 3).st
       wctx wctx false 99).ctx.user_ip4 = wbackend.address ∧
    (sock4_xlate_fwd wcfg (sock4_xlate_fwd wcfg wstAff wctx wctx false 3).st
       wctx wctx false 99).ctx.user_port = wbackend.port :=
  sock4_affinity_stickiness wcfg wstAff
    (sock4_xlate_fwd wcfg wstAff wctx wctx false 3).st wctx false false 3 99
    (sock4_xlate_fwd wcfg wstAff wctx wctx false 3) wsvcAff wsvcAff
    { address := 1000, dport := 20480, backend_slot := 0 }
    { address := 1000, dport := 20480, backend_slot := 0 } 42 wbackend
    rfl (by decide) (by decide) (by decide) (by decide) (by decide) rfl
    (by decide) (by decide) (by decide) (by decide) (by decide) (by decide)
    (by decide) (by decide) rfl

/-- C10: when a forward translation for an affinity-enabled service
selects a fresh backend (no usable affinity entry existed), writes the
new affinity entry, and the reverse-cache record then fails, the call
aborts with OutOfResources and the destination context unchanged — but
the freshly written affinity entry remains in the affinity table. -/
theorem sock4_affinity_write_survives_revnat_failure (cfg : LBConfig)
    (st : LBState) (ctx : SockAddrCtx) (u : Bool) (p : Nat)
    (svc bslot : Lb4Service) (key1 : Lb4Key) (backend : Lb4Backend)
    (hg1 : (cfg.socket_lb_host_only && !ctx_in_hostns cfg ctx) = false)
    (hg2 : (!u && !sock_proto_enabled ctx.protocol) = false)
    (hres : sock4_resolve_service cfg st
        { address := ctx.user_ip4, dport := ctx_dst_port ctx, backend_slot := 0 }
        (ctx_in_hostns cfg ctx) = (some svc, key1))
    (hskip : sock4_skip_xlate cfg st svc ctx.user_ip4 = false)
    (haff : svc.flag_affinity = true)
    (hnoentry : st.affinity svc.rev_nat_index ctx.netns_cookie = none)
    (hslot : lb4_lookup_backend_slot st
        { key1 with backend_slot := sock_select_slot p ctx % svc.count + 1 } =
        some bslot)
    (hbackend : lb4_lookup_backend st bslot.backend_id = some backend)
    (hlr : (svc.flag_localredirect &&
            sock4_skip_xlate_if_same_netns st ctx backend) = false)
    (hfail : cfg.revnat_update_fails = true)
    (hnodup : st.revnat { cookie := ctx.sock_cookie, address := backend.address,
                          port := backend.port } ≠
              some { address := ctx.user_ip4, port := ctx_dst_port ctx,
                     rev_nat_index := svc.rev_nat_index }) :
    (sock4_xlate_fwd cfg st ctx ctx u p).ret = some .ENOMEM ∧
    (sock4_xlate_fwd cfg st ctx ctx u p).ctx = ctx ∧
    (sock4_xlate_fwd cfg st ctx ctx u p).st.affinity svc.rev_nat_index
      ctx.netns_cookie = some bslot.backend_id ∧
    (sock4_xlate_fwd cfg st ctx ctx u p).metrics =
      [(METRIC_EGRESS, REASON_LB_REVNAT_UPDATE)] := by
  have haffb : sock4_affinity_backend st svc ctx.netns_cookie = none := by
    simp [sock4_affinity_backend, haff, lb4_affinity_backend_id_by_netns,
          hnoentry]
  simp only [sock4_xlate_fwd, hres, hg1, hg2, hskip, haffb, hslot, hbackend,
             Bool.false_eq_true, if_false]
  exact sock4_fwd_tail_nomem cfg st ctx ctx svc
    { address := ctx.user_ip4, dport := ctx_dst_port ctx, backend_slot := 0 }
    ctx.netns_cookie bslot.backend_id backend
    (some (sock_select_slot p ctx % svc.count + 1)) _ rfl hlr haff hfail hnodup

theorem sock4_affinity_write_survives_revnat_failure_witness :
    (sock4_xlate_fwd wcfgFail wstAff wctx wctx false 3).ret = some .ENOMEM ∧
    (sock4_xlate_fwd wcfgFail wstAff wctx wctx false 3).ctx = wctx ∧
    (sock4_xlate_fwd wcfgFail wstAff wctx wctx false 3).st.affinity
      wsvcAff.rev_nat_index wctx.netns_cookie = some wslotAff.backend_id ∧
    (sock4_xlate_fwd wcfgFail wstAff wctx wctx false 3).metrics =
      [(METRIC_EGRESS, REASON_LB_REVNAT_UPDATE)] :=
  sock4_affinity_write_survives_revnat_failure wcfgFail wstAff wctx false 3
    wsvcAff wslotAff { address := 1000, dport := 20480, backend_slot := 0 }
    wbackend (by decide) (by decide) (by decide) (by decide) (by decide)
    (by decide) (by decide) (by decide) (by decide) (by decide) (by decide)
